import Mathlib

/-!
Shallow embedding of the easy-ucp checkout state machine and catalog
ingestion pipeline, together with theorems checking the specification
claims against it.

Sources embedded:
- server route handlers for checkout sessions (create or update or
  complete) and product upload (CSV and JSON), from
  src/server/routes/ucp.js;
- the Remix app route handlers handleUpdateCheckout and
  handleCompleteCheckout from src/app/routes/api.ucp.v1.$.tsx;
- validateCheckoutStatus and createUCPError from
  src/app/lib/ucp/validation.ts.

Database access is modelled by explicit state passing: checkout sessions
as an association list keyed by session id, the catalog as lists of
product and merchant rows.  JavaScript numbers are modelled as exact
rationals.  A JSON value that is absent or null is modelled as none; the
handlers only test truthiness of these fields, and the relevant values
(buyer info, shipping address, payment method objects) are non-null
objects, hence truthy, so presence coincides with truthiness.
-/

namespace EasyUcp

/-! ### Checkout data model (validation.ts schemas, supabase rows) -/

/-- Status column of easy_ucp_checkout_sessions. -/
inductive Status where
  | incomplete
  | ready_for_complete
  | completed
deriving DecidableEq, Repr

/-- BuyerInfoSchema: email plus optional name and phone fields.  The
server route applies no schema, so a stored buyer_info may lack the
email; email is therefore an Option here. -/
structure BuyerInfo where
  email : Option String
  first_name : Option String
  last_name : Option String
  phone : Option String
deriving DecidableEq, Repr

/-- ShippingAddressSchema. -/
structure ShippingAddress where
  address1 : String
  address2 : Option String
  city : String
  province : String
  country : String
  zip : String
deriving DecidableEq, Repr

/-- payment_method is opaque in the source (z.any()); modelled as an
opaque token. -/
abbrev PaymentMethod := String

/-- The item object inside LineItemSchema. -/
structure ItemRef where
  id : String
  title : String
  price : ℚ
deriving DecidableEq, Repr

/-- LineItemSchema. -/
structure LineItem where
  item : ItemRef
  id : String
  quantity : ℚ
deriving DecidableEq, Repr

/-- A row of easy_ucp_checkout_sessions (the fields the handlers use). -/
structure Session where
  status : Status
  line_items : List LineItem
  buyer_info : Option BuyerInfo
  shipping_address : Option ShippingAddress
  payment_method : Option PaymentMethod
  shopify_order_id : Option String
deriving DecidableEq, Repr

/-- Severity enum of UCPMessageSchema. -/
inductive Severity where
  | recoverable
  | requires_buyer_input
  | requires_buyer_review
deriving DecidableEq, Repr

/-- UCPMessageSchema tuple. -/
structure UCPMessage where
  type : String
  code : String
  path : String
  content : String
  severity : Severity
deriving DecidableEq, Repr

/-- createUCPError from validation.ts. -/
def createUCPError (code : String) (path : String) (content : String)
    (severity : Severity) : UCPMessage :=
  { type := "error", code := code, path := path, content := content,
    severity := severity }

/-- JavaScript truthiness of session.buyer_info.email as tested by
validateCheckoutStatus: the buyer_info object must be present and its
email field must be a non-empty string. -/
def emailTruthy : Option BuyerInfo → Bool
  | none => false
  | some b =>
    match b.email with
    | none => false
    | some e => !e.isEmpty

/-- validateCheckoutStatus from validation.ts: collects a message for
each missing required field, then derives the status; a stored status of
completed is kept (sticky), otherwise the status is ready_for_complete
exactly when no message was collected. -/
def validateCheckoutStatus (s : Session) : Status × List UCPMessage :=
  let messages :=
    (if emailTruthy s.buyer_info then []
     else [createUCPError "missing" "$.buyer.email" "Buyer email is required"
            .recoverable])
    ++ (if s.shipping_address.isSome then []
        else [createUCPError "missing" "$.shipping_address"
               "Shipping address is required" .requires_buyer_input])
    ++ (if s.payment_method.isSome then []
        else [createUCPError "missing" "$.payment_method"
               "Payment method is required" .requires_buyer_input])
  let status :=
    if s.status = .completed then Status.completed
    else if messages = [] then Status.ready_for_complete
    else Status.incomplete
  (status, messages)

/-- The body of a PUT checkout-sessions request; none models an absent
(or null, hence falsy) field. -/
structure UpdateBody where
  line_items : Option (List LineItem)
  buyer_info : Option BuyerInfo
  shipping_address : Option ShippingAddress
  payment_method : Option PaymentMethod
deriving DecidableEq, Repr

/-- The session store, keyed by session_id. -/
abbrev SessionStore := List (String × Session)

/-- Lookup by session_id (supabase select ... eq session_id ... single). -/
def lookupSession (l : SessionStore) (id : String) : Option Session :=
  (l.find? (fun p => p.1 = id)).map (fun p => p.2)

/-- Update by session_id (supabase update ... eq session_id). -/
def setSession (l : SessionStore) (id : String) (s : Session) : SessionStore :=
  l.map (fun p => if p.1 = id then (p.1, s) else p)

/-! ### Server route PUT /api/ucp/v1/checkout-sessions/:id (ucp.js) -/

/-- The field application and status assignment of the server route
update handler: each of buyer_info, shipping_address, payment_method is
written when present in the body, and status is set to
ready_for_complete only when the body itself carries all three fields
(the stored fields are not consulted).  line_items in the body is
ignored by this handler. -/
def applyUpdatesExpress (s : Session) (b : UpdateBody) : Session :=
  let s1 := match b.buyer_info with
    | some v => { s with buyer_info := some v }
    | none => s
  let s2 := match b.shipping_address with
    | some v => { s1 with shipping_address := some v }
    | none => s1
  let s3 := match b.payment_method with
    | some v => { s2 with payment_method := some v }
    | none => s2
  if b.buyer_info.isSome && b.shipping_address.isSome
      && b.payment_method.isSome then
    { s3 with status := .ready_for_complete }
  else s3

/-- Outcome of the server route update handler. -/
inductive ExpressUpdateOutcome where
  | notFound
  | ok (updated : Session)
deriving DecidableEq, Repr

/-- PUT /api/ucp/v1/checkout-sessions/:id from ucp.js: look the session
up by id; 404 when absent; otherwise apply the body fields (no check of
the stored status, completed included) and respond with the updated
row. -/
def expressUpdateHandler (l : SessionStore) (id : String) (b : UpdateBody) :
    SessionStore × ExpressUpdateOutcome :=
  match lookupSession l id with
  | none => (l, .notFound)
  | some s =>
    let s1 := applyUpdatesExpress s b
    (setSession l id s1, .ok s1)

/-- Outcome of the server route complete handler; notReady carries no
message list, mirroring the bare response of the source. -/
inductive ExpressCompleteOutcome where
  | notReady
  | okDone (order_id : String)
deriving DecidableEq, Repr

/-- POST /api/ucp/v1/checkout-sessions/:id/complete from ucp.js: the
session must exist and its stored status must be ready_for_complete,
otherwise a generic 400 with error Not ready; on success the status
becomes completed and an order id is assigned. -/
def expressCompleteHandler (l : SessionStore) (id : String)
    (orderId : String) : SessionStore × ExpressCompleteOutcome :=
  match lookupSession l id with
  | none => (l, .notReady)
  | some s =>
    if s.status = .ready_for_complete then
      (setSession l id
        { s with status := .completed, shopify_order_id := some orderId },
       .okDone orderId)
    else (l, .notReady)

/-! ### App route handlers (api.ucp.v1.$.tsx) -/

/-- The field application step of handleUpdateCheckout: every field of
the validated body that is present is written, line_items included. -/
def applyUpdates (s : Session) (b : UpdateBody) : Session :=
  let s1 := match b.line_items with
    | some v => { s with line_items := v }
    | none => s
  let s2 := match b.buyer_info with
    | some v => { s1 with buyer_info := some v }
    | none => s1
  let s3 := match b.shipping_address with
    | some v => { s2 with shipping_address := some v }
    | none => s2
  match b.payment_method with
  | some v => { s3 with payment_method := some v }
  | none => s3

/-- Outcome of handleUpdateCheckout. -/
inductive RemixUpdateOutcome where
  | notFound
  | updated (status : Status) (messages : List UCPMessage)
deriving DecidableEq, Repr

/-- handleUpdateCheckout from api.ucp.v1.$.tsx: look the session up,
apply the present body fields, recompute the status over the merged
session with validateCheckoutStatus, persist the status when it
changed, and respond with the recomputed status and messages. -/
def handleUpdateCheckout (l : SessionStore) (id : String) (b : UpdateBody) :
    SessionStore × RemixUpdateOutcome :=
  match lookupSession l id with
  | none => (l, .notFound)
  | some s =>
    let merged := applyUpdates s b
    let vr := validateCheckoutStatus merged
    let final := if vr.1 = merged.status then merged
      else { merged with status := vr.1 }
    (setSession l id final, .updated vr.1 vr.2)

/-- Outcome of handleCompleteCheckout. -/
inductive RemixCompleteOutcome where
  | notFound
  | notReadyMsgs (messages : List UCPMessage)
  | completedOk (order_id : String)
deriving DecidableEq, Repr

/-- handleCompleteCheckout from api.ucp.v1.$.tsx: recompute the status
with validateCheckoutStatus; when it is not ready_for_complete respond
400 with the collected messages and assign nothing; otherwise set the
status to completed and assign an order id. -/
def handleCompleteCheckout (l : SessionStore) (id : String)
    (orderId : String) : SessionStore × RemixCompleteOutcome :=
  match lookupSession l id with
  | none => (l, .notFound)
  | some s =>
    let vr := validateCheckoutStatus s
    if vr.1 = .ready_for_complete then
      (setSession l id
        { s with status := .completed, shopify_order_id := some orderId },
       .completedOk orderId)
    else (l, .notReadyMsgs vr.2)

/-! ### Ingestion pipeline (product upload routes of ucp.js) -/

/-- Decimal value of a digit list, most significant first. -/
def natOfDigits (ds : List Char) : Nat :=
  ds.foldl (fun a c => a * 10 + (c.toNat - 48)) 0

/-- JavaScript parseFloat on a string, restricted to the forms the
pipeline meets: optional leading spaces, an optional sign, then the
longest prefix matching digits, an optional point and fraction digits.
none models NaN (no digit consumed); trailing garbage is ignored, as in
JS.  The exponent suffix of full parseFloat is not modelled; no claim
and no concrete input here uses one. -/
def jsParseFloat (s : String) : Option ℚ :=
  let cs := s.data.dropWhile (fun c => c = ' ')
  let sc : ℚ × List Char :=
    match cs with
    | '-' :: t => (-1, t)
    | '+' :: t => (1, t)
    | _ => (1, cs)
  let ip := sc.2.takeWhile Char.isDigit
  let rest := sc.2.dropWhile Char.isDigit
  let fp :=
    match rest with
    | '.' :: t => t.takeWhile Char.isDigit
    | _ => []
  if ip = [] ∧ fp = [] then none
  else some (sc.1 * ((natOfDigits ip : ℚ)
    + (natOfDigits fp : ℚ) / (10 : ℚ) ^ fp.length))

/-- JavaScript String.prototype.trim, modelled by direct char-list
recursion (whitespace stripped from both ends). -/
def jsTrim (s : String) : String :=
  ⟨((s.data.dropWhile Char.isWhitespace).reverse.dropWhile
      Char.isWhitespace).reverse⟩

/-- JavaScript String.prototype.toUpperCase over the ASCII range,
modelled by direct char-list mapping. -/
def jsToUpper (s : String) : String :=
  ⟨s.data.map Char.toUpper⟩

/-- The JS expression (x || d) on an optional string: absent, null and
the empty string are falsy and give the default. -/
def jsOrStr (o : Option String) (d : String) : String :=
  match o with
  | none => d
  | some s => if s = "" then d else s

/-- The JS pattern (x || '').trim() || null used for the optional
columns: null when the trimmed value is empty. -/
def trimOrNone (o : Option String) : Option String :=
  let t := jsTrim (jsOrStr o "")
  if t = "" then none else some t

/-- A parsed CSV record after the structural column check: the required
columns name, price, url are present on every row (possibly empty,
csv-parse already cell-trimmed); optional columns may be absent. -/
structure CsvRow where
  name : String
  price : String
  url : String
  description : Option String
  currency : Option String
  image_url : Option String
  sku : Option String
  category : Option String
  brand : Option String
deriving DecidableEq, Repr

/-- A number-valued JSON field: either a JSON number or a string that
parseFloat will be applied to. -/
inductive JsonNum where
  | num (q : ℚ)
  | str (s : String)
deriving DecidableEq, Repr

/-- parseFloat applied to a JSON value: a finite number round-trips
through its string form unchanged. -/
def parseFloatJson : JsonNum → Option ℚ
  | .num q => some q
  | .str s => jsParseFloat s

/-- An element of the products array of a JSON upload; none models an
absent field. -/
structure JsonItem where
  name : Option String
  price : Option JsonNum
  url : Option String
  description : Option String
  currency : Option String
  image_url : Option String
  sku : Option String
  category : Option String
  brand : Option String
deriving DecidableEq, Repr

/-- A row of easy_ucp_products as built by the upload handlers. -/
structure Product where
  merchant_id : Nat
  name : String
  description : Option String
  price : ℚ
  currency : String
  url : String
  image_url : Option String
  sku : Option String
  category : Option String
  brand : Option String
  active : Bool
deriving DecidableEq, Repr

/-- A row of easy_ucp_merchants (the fields the pipeline touches). -/
structure Merchant where
  id : Nat
  product_count : Nat
deriving DecidableEq, Repr

/-- The catalog store: product rows and merchant rows. -/
structure DB where
  products : List Product
  merchants : List Merchant
deriving DecidableEq, Repr

/-- Count of a merchant's active products (the supabase count query
select count exact, eq merchant_id, eq active true). -/
def countActive (ps : List Product) (m : Nat) : Nat :=
  (ps.filter (fun p => p.merchant_id == m && p.active)).length

/-- Row-level validation of one CSV record (rowNum = index + 2 for the
header row and 1-based numbering), in source order: name, price, url. -/
def csvValidateRow (rowNum : Nat) (r : CsvRow) : List String :=
  (if r.name = "" ∨ jsTrim r.name = "" then
    ["Row " ++ toString rowNum ++ ": missing name"] else [])
  ++ (if r.price = "" ∨ jsParseFloat r.price = none then
    ["Row " ++ toString rowNum ++ ": invalid price \"" ++ r.price ++ "\""]
    else [])
  ++ (if r.url = "" ∨ jsTrim r.url = "" then
    ["Row " ++ toString rowNum ++ ": missing url"] else [])

/-- All row-level CSV errors, collected across every row.  The source
collects them in the same map that builds the product rows; collection
and mapping are split here but run over the same rows in the same
order. -/
def csvErrors (records : List CsvRow) : List String :=
  (records.enum.map (fun p => csvValidateRow (p.1 + 2) p.2)).flatten

/-- The product row built from one CSV record (the transform part of
the map in the upload handler). -/
def csvToProduct (m : Nat) (r : CsvRow) : Product :=
  { merchant_id := m,
    name := jsTrim r.name,
    description := trimOrNone r.description,
    price := (jsParseFloat r.price).getD 0,
    currency := jsToUpper (jsTrim (jsOrStr r.currency "EUR")),
    url := jsTrim r.url,
    image_url := trimOrNone r.image_url,
    sku := trimOrNone r.sku,
    category := trimOrNone r.category,
    brand := trimOrNone r.brand,
    active := true }

/-- The transformed batch of a CSV upload. -/
def csvProducts (m : Nat) (records : List CsvRow) : List Product :=
  records.map (csvToProduct m)

/-- JS falsiness of an optional string field (absent, null or empty). -/
def jsFalsyStr (o : Option String) : Bool :=
  match o with
  | none => true
  | some s => s.isEmpty

/-- Whether item.price fails the JSON check
(item.price === undefined || isNaN(parseFloat(item.price))). -/
def jsonPriceInvalid (o : Option JsonNum) : Bool :=
  match o with
  | none => true
  | some v => (parseFloatJson v).isNone

/-- Row-level validation of one JSON item (1-based index), in source
order: name, price, url. -/
def jsonValidateItem (itemNum : Nat) (it : JsonItem) : List String :=
  (if jsFalsyStr it.name then
    ["Product " ++ toString itemNum ++ ": missing name"] else [])
  ++ (if jsonPriceInvalid it.price then
    ["Product " ++ toString itemNum ++ ": invalid price"] else [])
  ++ (if jsFalsyStr it.url then
    ["Product " ++ toString itemNum ++ ": missing url"] else [])

/-- All row-level JSON errors. -/
def jsonErrors (items : List JsonItem) : List String :=
  (items.enum.map (fun p => jsonValidateItem (p.1 + 1) p.2)).flatten

/-- The product row built from one JSON item. -/
def jsonToProduct (m : Nat) (it : JsonItem) : Product :=
  { merchant_id := m,
    name := jsTrim (jsOrStr it.name ""),
    description := trimOrNone it.description,
    price := (it.price.bind parseFloatJson).getD 0,
    currency := jsToUpper (jsTrim (jsOrStr it.currency "EUR")),
    url := jsTrim (jsOrStr it.url ""),
    image_url := trimOrNone it.image_url,
    sku := trimOrNone it.sku,
    category := trimOrNone it.category,
    brand := trimOrNone it.brand,
    active := true }

/-- The transformed batch of a JSON upload. -/
def jsonProducts (m : Nat) (items : List JsonItem) : List Product :=
  items.map (jsonToProduct m)

/-- Result of the sequential batch insert loop. -/
structure InsertResult where
  store : List Product
  inserted : Nat
  ok : Bool
deriving DecidableEq, Repr

/-- Structural worker for the batch insert loop, recursing on a fuel
bound so that the definition reduces by iota; each step consumes at
least one pending row, so fuel = number of pending rows (supplied by
insertBatches) is always enough and the fuel-exhausted branch is
unreachable. -/
def insertBatchesAux (fails : Nat → Bool) :
    Nat → List Product → List Product → Nat → Nat → InsertResult
  | _, store, [], _, inserted => ⟨store, inserted, true⟩
  | 0, store, _ :: _, _, inserted => ⟨store, inserted, true⟩
  | fuel + 1, store, h :: t, idx, inserted =>
    if fails idx then ⟨store, inserted, false⟩
    else insertBatchesAux fails fuel (store ++ (h :: t).take 100)
      ((h :: t).drop 100) (idx + 1) (inserted + ((h :: t).take 100).length)

/-- The batch insert loop (for i += 100): slices of 100 rows inserted
sequentially; fails gives which insert statements the database rejects,
by batch index; on a failure the loop stops and reports the rows
inserted before the failing batch, keeping the prior batches. -/
def insertBatches (store : List Product) (ps : List Product)
    (fails : Nat → Bool) (idx : Nat) (inserted : Nat) : InsertResult :=
  insertBatchesAux fails ps.length store ps idx inserted

/-- The HTTP response of an upload handler (the fields the claims
mention). -/
inductive UploadResponse where
  | emptyError
  | validationError (errorsShown : List String) (totalErrors : Nat)
  | insertFailure (insertedSoFar : Nat)
  | success (productsUploaded : Nat) (totalActive : Nat)
deriving DecidableEq, Repr

/-- POST /api/products/upload (CSV), from the parsed records on: empty
file check, row-level validation (rejecting the whole batch with the
first 20 errors and the true total), replace-mode delete scoped to the
merchant, sequential batch insert, then recount of the merchant's
active products written into product_count. -/
def csvUpload (db : DB) (m : Nat) (records : List CsvRow)
    (replaceMode : Bool) (fails : Nat → Bool) : DB × UploadResponse :=
  if records.length = 0 then (db, .emptyError)
  else
    let errors := csvErrors records
    if errors ≠ [] then (db, .validationError (errors.take 20) errors.length)
    else
      let db1 := if replaceMode then
          { db with products := db.products.filter (fun p => !(p.merchant_id == m)) }
        else db
      let r := insertBatches db1.products (csvProducts m records) fails 0 0
      if r.ok then
        let count := countActive r.store m
        ({ products := r.store,
           merchants := db1.merchants.map (fun mm =>
             if mm.id == m then { mm with product_count := count } else mm) },
         .success r.inserted count)
      else ({ db1 with products := r.store }, .insertFailure r.inserted)

/-- POST /api/products/json, same pipeline over JSON items. -/
def jsonUpload (db : DB) (m : Nat) (items : List JsonItem)
    (replaceMode : Bool) (fails : Nat → Bool) : DB × UploadResponse :=
  if items.length = 0 then (db, .emptyError)
  else
    let errors := jsonErrors items
    if errors ≠ [] then (db, .validationError (errors.take 20) errors.length)
    else
      let db1 := if replaceMode then
          { db with products := db.products.filter (fun p => !(p.merchant_id == m)) }
        else db
      let r := insertBatches db1.products (jsonProducts m items) fails 0 0
      if r.ok then
        let count := countActive r.store m
        ({ products := r.store,
           merchants := db1.merchants.map (fun mm =>
             if mm.id == m then { mm with product_count := count } else mm) },
         .success r.inserted count)
      else ({ db1 with products := r.store }, .insertFailure r.inserted)

/-- DELETE /api/products/mine: delete every product row of the merchant
and write product_count 0 on the merchant row. -/
def purgeProducts (db : DB) (m : Nat) : DB :=
  { products := db.products.filter (fun p => !(p.merchant_id == m)),
    merchants := db.merchants.map (fun mm =>
      if mm.id == m then { mm with product_count := 0 } else mm) }

/-! ### Discovery feed (GET /api/ucp/v1/:slug/products) -/

/-- The JS pattern (parseInt(x) || d): an absent or non-numeric value
and 0 are falsy and give the default. -/
def jsOrNat (o : Option Nat) (d : Nat) : Nat :=
  match o with
  | none => d
  | some 0 => d
  | some v => v

/-- The pagination-relevant part of the feed response. -/
structure FeedResult where
  page : Nat
  limit : Nat
  items : List Product
  total : Nat
  total_pages : Nat
  next : Bool
deriving Repr

/-- The pagination logic of the product feed handler over the
merchant's (filtered, ordered) active products ps: page defaults to 1,
limit to 100 capped by 500, the range query returns limit rows from
offset, count is the total matching rows, total_pages mirrors
Math.ceil(count / limit) and next is set when page * limit < count. -/
def productFeed (ps : List Product) (pageParam limitParam : Option Nat) :
    FeedResult :=
  let page := jsOrNat pageParam 1
  let limit := min (jsOrNat limitParam 100) 500
  let offset := (page - 1) * limit
  { page := page,
    limit := limit,
    items := (ps.drop offset).take limit,
    total := ps.length,
    total_pages := Nat.ceil ((ps.length : ℚ) / (limit : ℚ)),
    next := decide (page * limit < ps.length) }

/-! ### Concrete fixtures used by counterexamples and witnesses -/

/-- A concrete product row. -/
def pW : Product :=
  { merchant_id := 1, name := "Widget", description := none, price := 1,
    currency := "EUR", url := "https://acme.example/w", image_url := none,
    sku := none, category := none, brand := none, active := true }

/-- A CSV record with only the required columns filled. -/
def mkRow (nm pr u : String) : CsvRow :=
  { name := nm, price := pr, url := u, description := none,
    currency := none, image_url := none, sku := none, category := none,
    brand := none }

/-- A five-row batch whose third row has the negative, parseable price
-5; every other field is well-formed. -/
def negPriceBatch : List CsvRow :=
  [mkRow "Widget1" "1" "https://acme.example/w1",
   mkRow "Widget2" "2.50" "https://acme.example/w2",
   mkRow "Widget3" "-5" "https://acme.example/w3",
   mkRow "Widget4" "3" "https://acme.example/w4",
   mkRow "Widget5" "4" "https://acme.example/w5"]

/-- A JSON item with only the required fields filled. -/
def mkItem (nm : String) (pr : JsonNum) (u : String) : JsonItem :=
  { name := some nm, price := some pr, url := some u, description := none,
    currency := none, image_url := none, sku := none, category := none,
    brand := none }

/-- A two-row batch whose second row (CSV row number 3) has the
unparseable price abc. -/
def badPriceBatch : List CsvRow :=
  [mkRow "Widget1" "1" "https://acme.example/w1",
   mkRow "Widget2" "abc" "https://acme.example/w2"]

/-- A JSON item whose price is an unparseable string. -/
def itBadPrice : JsonItem :=
  mkItem "Widget" (.str "oops") "https://acme.example/w"

/-- A JSON item with a negative numeric price. -/
def negItem : JsonItem := mkItem "Widget" (.num (-5)) "https://acme.example/w"

/-- A JSON item whose name is absent (one row-level error). -/
def namelessItem : JsonItem :=
  { name := none, price := some (.num 1), url := some "https://a.example/x",
    description := none, currency := none, image_url := none, sku := none,
    category := none, brand := none }

/-- A catalog with one merchant (id 1) and no products. -/
def db0 : DB := { products := [], merchants := [{ id := 1, product_count := 0 }] }

/-- A catalog with two products of merchant 1 (batch A), one product of
merchant 2, and both merchant rows. -/
def dbAB : DB :=
  { products :=
      [{ pW with name := "A1", url := "https://acme.example/a1" },
       { pW with name := "A2", url := "https://acme.example/a2" },
       { pW with merchant_id := 2, name := "B1", url := "https://other.example/b1" }],
    merchants := [{ id := 1, product_count := 2 },
                  { id := 2, product_count := 1 }] }

/-- A catalog whose merchant row carries a stale product_count of 7
although the merchant has no product rows. -/
def dbStale : DB :=
  { products := [{ pW with merchant_id := 2 }],
    merchants := [{ id := 1, product_count := 7 },
                  { id := 2, product_count := 1 }] }

/-- A buyer with an email. -/
def bi0 : BuyerInfo :=
  { email := some "agent@example.com", first_name := none,
    last_name := none, phone := none }

/-- A buyer object without an email (the server route accepts it). -/
def biNoEmail : BuyerInfo :=
  { email := none, first_name := some "A", last_name := none, phone := none }

/-- A shipping address. -/
def addr0 : ShippingAddress :=
  { address1 := "Main St 1", address2 := none, city := "Helsinki",
    province := "UU", country := "FI", zip := "00100" }

/-- An incomplete session that already has buyer_info (with email) and
shipping_address but no payment_method. -/
def sNeedsPay : Session :=
  { status := .incomplete, line_items := [], buyer_info := some bi0,
    shipping_address := some addr0, payment_method := none,
    shopify_order_id := none }

/-- A completed session with all fields populated and an order id. -/
def sDone : Session :=
  { status := .completed, line_items := [], buyer_info := some bi0,
    shipping_address := some addr0, payment_method := some "tok_1",
    shopify_order_id := some "order_1" }

/-- An incomplete session missing only the shipping address. -/
def sNeedsShip : Session :=
  { status := .incomplete, line_items := [], buyer_info := some bi0,
    shipping_address := none, payment_method := some "tok_1",
    shopify_order_id := none }

/-- A session whose stored status is ready_for_complete although its
buyer_info has no email (as the server route update can produce). -/
def sReadyNoEmail : Session :=
  { status := .ready_for_complete, line_items := [],
    buyer_info := some biNoEmail, shipping_address := some addr0,
    payment_method := some "tok_1", shopify_order_id := none }

/-- The session stored by the server route update when a completed
session is updated with all three fields: status reverts to
ready_for_complete. -/
def sDoneAfterExpress : Session :=
  { sDone with payment_method := some "tok_3", status := .ready_for_complete }

/-- The session stored by the app route update when a completed session
is updated with a new payment method: the field changes, the status
stays completed. -/
def sDoneAfterRemix : Session := { sDone with payment_method := some "tok_2" }

/-- An update body carrying only a payment method. -/
def bPay : UpdateBody :=
  { line_items := none, buyer_info := none, shipping_address := none,
    payment_method := some "tok_2" }

/-- An update body carrying all three checkout fields. -/
def bAll : UpdateBody :=
  { line_items := none, buyer_info := some bi0,
    shipping_address := some addr0, payment_method := some "tok_3" }

/-! ### Helper lemmas about the insert loop -/

theorem insertBatchesAux_noFail (fails : Nat → Bool)
    (hf : ∀ j, fails j = false) :
    ∀ (fuel : Nat) (ps store : List Product) (idx inserted : Nat),
      ps.length ≤ fuel →
      insertBatchesAux fails fuel store ps idx inserted
        = ⟨store ++ ps, inserted + ps.length, true⟩ := by
  intro fuel
  induction fuel with
  | zero =>
    intro ps store idx inserted h
    cases ps with
    | nil => simp [insertBatchesAux]
    | cons a t => simp at h
  | succ f ih =>
    intro ps store idx inserted h
    cases ps with
    | nil => simp [insertBatchesAux]
    | cons a t =>
      rw [insertBatchesAux, hf idx]
      simp only [Bool.false_eq_true, if_false]
      rw [ih ((a :: t).drop 100) (store ++ (a :: t).take 100) (idx + 1)
        (inserted + ((a :: t).take 100).length)
        (by simp only [List.length_drop]; omega)]
      simp only [InsertResult.mk.injEq, List.append_assoc,
        List.take_append_drop, List.length_take, List.length_drop,
        true_and, and_true]
      omega

theorem insertBatchesAux_fail (fails : Nat → Bool) :
    ∀ (k fuel : Nat) (ps store : List Product) (idx inserted : Nat),
      ps.length ≤ fuel → 100 * k < ps.length →
      (∀ j, j < k → fails (idx + j) = false) → fails (idx + k) = true →
      insertBatchesAux fails fuel store ps idx inserted
        = ⟨store ++ ps.take (100 * k), inserted + 100 * k, false⟩ := by
  intro k
  induction k with
  | zero =>
    intro fuel ps store idx inserted hfuel hlen _ hk
    cases ps with
    | nil => simp at hlen
    | cons a t =>
      cases fuel with
      | zero => simp at hfuel
      | succ f =>
        rw [insertBatchesAux]
        rw [Nat.add_zero] at hk
        rw [hk]
        simp
  | succ k ih =>
    intro fuel ps store idx inserted hfuel hlen hprev hk
    cases ps with
    | nil => simp at hlen
    | cons a t =>
      cases fuel with
      | zero => simp at hfuel
      | succ f =>
        have h0 : fails idx = false := by
          have := hprev 0 (Nat.succ_pos k)
          simpa using this
        rw [insertBatchesAux, h0]
        simp only [Bool.false_eq_true, if_false]
        rw [ih f ((a :: t).drop 100) (store ++ (a :: t).take 100) (idx + 1)
          (inserted + ((a :: t).take 100).length)
          (by simp only [List.length_drop]; omega)
          (by simp only [List.length_drop]; omega)
          (fun j hj => by
            have := hprev (j + 1) (by omega)
            rwa [show idx + (j + 1) = idx + 1 + j by omega] at this)
          (by rwa [show idx + 1 + k = idx + (k + 1) by omega])]
        have htake : (100 : Nat) * (k + 1) = 100 + 100 * k := by omega
        rw [htake, List.take_add]
        simp only [InsertResult.mk.injEq, List.append_assoc, true_and,
          and_true, List.length_take]
        omega

theorem insertBatches_noFail (store ps : List Product) (fails : Nat → Bool)
    (hf : ∀ j, fails j = false) (idx inserted : Nat) :
    insertBatches store ps fails idx inserted
      = ⟨store ++ ps, inserted + ps.length, true⟩ :=
  insertBatchesAux_noFail fails hf ps.length ps store idx inserted le_rfl

theorem insertBatches_fail (store ps : List Product) (fails : Nat → Bool)
    (k : Nat) (hlen : 100 * k < ps.length)
    (hprev : ∀ j, j < k → fails j = false) (hk : fails k = true)
    (idx : Nat) (inserted : Nat) (hidx : idx = 0) :
    insertBatches store ps fails idx inserted
      = ⟨store ++ ps.take (100 * k), inserted + 100 * k, false⟩ := by
  subst hidx
  exact insertBatchesAux_fail fails k ps.length ps store 0 inserted le_rfl
    hlen (fun j hj => by simpa using hprev j hj) (by simpa using hk)

/-! ### Helper lemmas about the validation path -/

theorem csvUpload_reject (db : DB) (m : Nat) (records : List CsvRow)
    (mode : Bool) (fails : Nat → Bool) (hne : records ≠ [])
    (herr : csvErrors records ≠ []) :
    csvUpload db m records mode fails
      = (db, .validationError ((csvErrors records).take 20)
          (csvErrors records).length) := by
  have h0 : ¬(records.length = 0) := by
    simpa [List.length_eq_zero] using hne
  rw [csvUpload]
  simp [h0, herr]

theorem jsonUpload_reject (db : DB) (m : Nat) (items : List JsonItem)
    (mode : Bool) (fails : Nat → Bool) (hne : items ≠ [])
    (herr : jsonErrors items ≠ []) :
    jsonUpload db m items mode fails
      = (db, .validationError ((jsonErrors items).take 20)
          (jsonErrors items).length) := by
  have h0 : ¬(items.length = 0) := by
    simpa [List.length_eq_zero] using hne
  rw [jsonUpload]
  simp [h0, herr]

theorem mem_csvErrors_of_row (records : List CsvRow) (i : Nat) (r : CsvRow)
    (hget : records[i]? = some r) (e : String)
    (he : e ∈ csvValidateRow (i + 2) r) : e ∈ csvErrors records := by
  unfold csvErrors
  rw [List.mem_flatten]
  exact ⟨csvValidateRow (i + 2) r,
    List.mem_map.mpr ⟨(i, r), List.mk_mem_enum_iff_getElem?.mpr hget, rfl⟩,
    he⟩

theorem mem_jsonErrors_of_item (items : List JsonItem) (i : Nat)
    (it : JsonItem) (hget : items[i]? = some it) (e : String)
    (he : e ∈ jsonValidateItem (i + 1) it) : e ∈ jsonErrors items := by
  unfold jsonErrors
  rw [List.mem_flatten]
  exact ⟨jsonValidateItem (i + 1) it,
    List.mem_map.mpr ⟨(i, it), List.mk_mem_enum_iff_getElem?.mpr hget, rfl⟩,
    he⟩

/-! ### Claim C7 -/

/-- C7: a batch that passes the structural check but has at least one
row-level error (here: the collected error list over all rows is
non-empty) is rejected as a whole: the response reports the first 20
collected errors together with the true total error count, and the
catalog is unchanged (zero rows committed, and in replace mode nothing
is deleted either), for CSV and JSON uploads alike. -/
theorem claim7_collect_errors_reject_whole_batch :
    (∀ (db : DB) (m : Nat) (records : List CsvRow) (mode : Bool)
        (fails : Nat → Bool), records ≠ [] → csvErrors records ≠ [] →
      csvUpload db m records mode fails
        = (db, .validationError ((csvErrors records).take 20)
            (csvErrors records).length))
    ∧ (∀ (db : DB) (m : Nat) (items : List JsonItem) (mode : Bool)
        (fails : Nat → Bool), items ≠ [] → jsonErrors items ≠ [] →
      jsonUpload db m items mode fails
        = (db, .validationError ((jsonErrors items).take 20)
            (jsonErrors items).length)) :=
  ⟨fun db m records mode fails hne herr =>
      csvUpload_reject db m records mode fails hne herr,
   fun db m items mode fails hne herr =>
      jsonUpload_reject db m items mode fails hne herr⟩

/-- Witness for C7: a 21-item JSON batch in which every item is missing
its name yields 21 collected errors, a response showing only the first
20 of them with the true total 21, and an unchanged catalog; a one-row
CSV batch with an empty name is likewise rejected with the catalog
unchanged. -/
theorem claim7_witness :
    (jsonErrors (List.replicate 21 namelessItem)).length = 21
    ∧ jsonUpload db0 1 (List.replicate 21 namelessItem) false (fun _ => false)
        = (db0, .validationError
            ((jsonErrors (List.replicate 21 namelessItem)).take 20)
            (jsonErrors (List.replicate 21 namelessItem)).length)
    ∧ csvUpload db0 1 [mkRow "" "1" "https://a.example/x"] false
        (fun _ => false)
        = (db0, .validationError
            ((csvErrors [mkRow "" "1" "https://a.example/x"]).take 20)
            (csvErrors [mkRow "" "1" "https://a.example/x"]).length) :=
  ⟨by decide,
   claim7_collect_errors_reject_whole_batch.2 db0 1
     (List.replicate 21 namelessItem) false (fun _ => false)
     (by decide) (by decide),
   claim7_collect_errors_reject_whole_batch.1 db0 1
     [mkRow "" "1" "https://a.example/x"] false (fun _ => false)
     (by decide) (by decide)⟩

/-! ### Claim C3 -/

/-- C3 counterexample: the five-row CSV batch whose third row has price
-5 (negative but parseable) passes row validation with no error at all,
the upload succeeds and all five rows are written to the catalog; the
same holds for a JSON item with numeric price -5.  This contradicts the
claim that a batch containing a negative-price row is rejected with an
error naming that row and zero rows written. -/
theorem claim3_counterexample :
    csvErrors negPriceBatch = []
    ∧ (csvUpload db0 1 negPriceBatch false (fun _ => false)).2
        = .success 5 5
    ∧ (csvUpload db0 1 negPriceBatch false (fun _ => false)).1.products.length
        = 5
    ∧ jsonErrors [negItem] = []
    ∧ (jsonUpload db0 1 [negItem] false (fun _ => false)).2 = .success 1 1 :=
  ⟨by decide, by decide, by decide, by decide, by decide⟩

/-- C3 amended: a row is rejected for its price exactly when the price
is missing or not parseable as a number (a negative parseable price is
accepted); for such a row the collected error list contains an entry
naming that row (CSV row number index + 2, accounting for the header
row; JSON item number index + 1), the upload is rejected reporting the
first 20 errors and the true total, and zero rows are written. -/
theorem claim3_amended_unparseable_price_rejected :
    (∀ (db : DB) (m : Nat) (records : List CsvRow) (mode : Bool)
        (fails : Nat → Bool) (i : Nat) (r : CsvRow),
      records[i]? = some r → r.price = "" ∨ jsParseFloat r.price = none →
      ("Row " ++ toString (i + 2) ++ ": invalid price \"" ++ r.price ++ "\"")
          ∈ csvErrors records
        ∧ csvUpload db m records mode fails
          = (db, .validationError ((csvErrors records).take 20)
              (csvErrors records).length))
    ∧ (∀ (db : DB) (m : Nat) (items : List JsonItem) (mode : Bool)
        (fails : Nat → Bool) (i : Nat) (it : JsonItem),
      items[i]? = some it → jsonPriceInvalid it.price = true →
      ("Product " ++ toString (i + 1) ++ ": invalid price")
          ∈ jsonErrors items
        ∧ jsonUpload db m items mode fails
          = (db, .validationError ((jsonErrors items).take 20)
              (jsonErrors items).length)) := by
  constructor
  · intro db m records mode fails i r hget hbad
    have hmem : ("Row " ++ toString (i + 2) ++ ": invalid price \""
        ++ r.price ++ "\"") ∈ csvErrors records := by
      refine mem_csvErrors_of_row records i r hget _ ?_
      simp [csvValidateRow, hbad]
    refine ⟨hmem, csvUpload_reject db m records mode fails ?_ ?_⟩
    · rintro rfl; simp at hget
    · intro hnil; rw [hnil] at hmem; simp at hmem
  · intro db m items mode fails i it hget hbad
    have hmem : ("Product " ++ toString (i + 1) ++ ": invalid price")
        ∈ jsonErrors items := by
      refine mem_jsonErrors_of_item items i it hget _ ?_
      simp [jsonValidateItem, hbad]
    refine ⟨hmem, jsonUpload_reject db m items mode fails ?_ ?_⟩
    · rintro rfl; simp at hget
    · intro hnil; rw [hnil] at hmem; simp at hmem

/-- Witness for C3 (amended) at a two-row CSV batch whose second row
has the unparseable price abc, and a one-item JSON batch whose price is
the string oops. -/
theorem claim3_witness :
    ("Row 3: invalid price \"abc\"" ∈ csvErrors badPriceBatch
      ∧ csvUpload db0 1 badPriceBatch false (fun _ => false)
        = (db0, .validationError ((csvErrors badPriceBatch).take 20)
            (csvErrors badPriceBatch).length))
    ∧ ("Product 1: invalid price" ∈ jsonErrors [itBadPrice]
      ∧ jsonUpload db0 1 [itBadPrice] false (fun _ => false)
        = (db0, .validationError ((jsonErrors [itBadPrice]).take 20)
            (jsonErrors [itBadPrice]).length)) :=
  ⟨claim3_amended_unparseable_price_rejected.1 db0 1 badPriceBatch false
     (fun _ => false) 1 (mkRow "Widget2" "abc" "https://acme.example/w2")
     (by decide) (by decide),
   claim3_amended_unparseable_price_rejected.2 db0 1 [itBadPrice] false
     (fun _ => false) 0 itBadPrice (by decide) (by decide)⟩

/-! ### Helper lemmas about the commit path -/

theorem mem_map_recount (ms : List Merchant) (m cnt : Nat) :
    ∀ mm ∈ ms.map (fun mm => if mm.id == m then
        { mm with product_count := cnt } else mm),
      mm.id = m → mm.product_count = cnt := by
  intro mm hmm hid
  rcases List.mem_map.mp hmm with ⟨mm0, _, rfl⟩
  by_cases hb : mm0.id = m
  · simp [hb]
  · simp only [beq_iff_eq, if_neg hb] at hid ⊢
    exact absurd hid hb

theorem csvUpload_noFail_eq (db : DB) (m : Nat) (records : List CsvRow)
    (mode : Bool) (fails : Nat → Bool) (hne : records ≠ [])
    (herr : csvErrors records = []) (hf : ∀ j, fails j = false) :
    csvUpload db m records mode fails
      = ({ products :=
             (if mode then db.products.filter (fun p => !(p.merchant_id == m))
              else db.products) ++ csvProducts m records,
           merchants := db.merchants.map (fun mm =>
             if mm.id == m then
               { mm with product_count := countActive ((if mode then db.products.filter (fun p => !(p.merchant_id == m)) else db.products) ++ csvProducts m records) m }
             else mm) },
         .success (csvProducts m records).length
           (countActive ((if mode then db.products.filter
               (fun p => !(p.merchant_id == m)) else db.products)
             ++ csvProducts m records) m)) := by
  have h0 : ¬(records.length = 0) := by
    simpa [List.length_eq_zero] using hne
  simp only [csvUpload, if_neg h0]
  rw [if_neg (by simp [herr])]
  rw [insertBatches_noFail _ _ fails hf 0 0]
  cases mode <;> simp

theorem jsonUpload_noFail_eq (db : DB) (m : Nat) (items : List JsonItem)
    (mode : Bool) (fails : Nat → Bool) (hne : items ≠ [])
    (herr : jsonErrors items = []) (hf : ∀ j, fails j = false) :
    jsonUpload db m items mode fails
      = ({ products :=
             (if mode then db.products.filter (fun p => !(p.merchant_id == m))
              else db.products) ++ jsonProducts m items,
           merchants := db.merchants.map (fun mm =>
             if mm.id == m then
               { mm with product_count := countActive ((if mode then db.products.filter (fun p => !(p.merchant_id == m)) else db.products) ++ jsonProducts m items) m }
             else mm) },
         .success (jsonProducts m items).length
           (countActive ((if mode then db.products.filter
               (fun p => !(p.merchant_id == m)) else db.products)
             ++ jsonProducts m items) m)) := by
  have h0 : ¬(items.length = 0) := by
    simpa [List.length_eq_zero] using hne
  simp only [jsonUpload, if_neg h0]
  rw [if_neg (by simp [herr])]
  rw [insertBatches_noFail _ _ fails hf 0 0]
  cases mode <;> simp

theorem csvUpload_success_recount (db : DB) (m : Nat) (records : List CsvRow)
    (mode : Bool) (fails : Nat → Bool) (db2 : DB) (ins cnt : Nat)
    (h : csvUpload db m records mode fails = (db2, .success ins cnt)) :
    ∀ mm ∈ db2.merchants, mm.id = m →
      mm.product_count = countActive db2.products m := by
  simp only [csvUpload] at h
  by_cases h0 : records.length = 0
  · rw [if_pos h0] at h
    simp at h
  · rw [if_neg h0] at h
    by_cases herr : csvErrors records = []
    · rw [if_neg (by simp [herr])] at h
      by_cases hok : (insertBatches
          (if mode then
            { db with
              products := db.products.filter (fun p => !(p.merchant_id == m)) }
          else db).products
          (csvProducts m records) fails 0 0).ok = true
      · rw [if_pos hok] at h
        rw [Prod.mk.injEq] at h
        obtain ⟨hdb, -⟩ := h
        subst hdb
        intro mm hmm hid
        exact mem_map_recount _ m _ mm hmm hid
      · rw [if_neg hok] at h
        simp at h
    · rw [if_pos herr] at h
      simp at h

theorem jsonUpload_success_recount (db : DB) (m : Nat) (items : List JsonItem)
    (mode : Bool) (fails : Nat → Bool) (db2 : DB) (ins cnt : Nat)
    (h : jsonUpload db m items mode fails = (db2, .success ins cnt)) :
    ∀ mm ∈ db2.merchants, mm.id = m →
      mm.product_count = countActive db2.products m := by
  simp only [jsonUpload] at h
  by_cases h0 : items.length = 0
  · rw [if_pos h0] at h
    simp at h
  · rw [if_neg h0] at h
    by_cases herr : jsonErrors items = []
    · rw [if_neg (by simp [herr])] at h
      by_cases hok : (insertBatches
          (if mode then
            { db with
              products := db.products.filter (fun p => !(p.merchant_id == m)) }
          else db).products
          (jsonProducts m items) fails 0 0).ok = true
      · rw [if_pos hok] at h
        rw [Prod.mk.injEq] at h
        obtain ⟨hdb, -⟩ := h
        subst hdb
        intro mm hmm hid
        exact mem_map_recount _ m _ mm hmm hid
      · rw [if_neg hok] at h
        simp at h
    · rw [if_pos herr] at h
      simp at h

/-! ### Helper lemmas about merchant scoping of product rows -/

theorem csvProducts_merchant (m : Nat) (records : List CsvRow) :
    ∀ p ∈ csvProducts m records, p.merchant_id = m := by
  intro p hp
  rcases List.mem_map.mp hp with ⟨r, _, rfl⟩
  rfl

theorem jsonProducts_merchant (m : Nat) (items : List JsonItem) :
    ∀ p ∈ jsonProducts m items, p.merchant_id = m := by
  intro p hp
  rcases List.mem_map.mp hp with ⟨it, _, rfl⟩
  rfl

theorem filter_self_of_merchant (m : Nat) (ps : List Product)
    (h : ∀ p ∈ ps, p.merchant_id = m) :
    ps.filter (fun p => p.merchant_id == m) = ps :=
  List.filter_eq_self.mpr (fun p hp => by simp [h p hp])

theorem filter_other_of_merchant (m m2 : Nat) (hne : m2 ≠ m)
    (ps : List Product) (h : ∀ p ∈ ps, p.merchant_id = m) :
    ps.filter (fun p => p.merchant_id == m2) = [] :=
  List.filter_eq_nil_iff.mpr (fun p hp => by simp [h p hp, Ne.symm hne])

theorem filter_out_then_self (m : Nat) (ps : List Product) :
    (ps.filter (fun p => !(p.merchant_id == m))).filter
        (fun p => p.merchant_id == m) = [] := by
  rw [List.filter_filter]
  exact List.filter_eq_nil_iff.mpr (fun p _ => by
    by_cases hp : p.merchant_id = m <;> simp [hp])

theorem filter_out_other (m m2 : Nat) (hne : m2 ≠ m) (ps : List Product) :
    (ps.filter (fun p => !(p.merchant_id == m))).filter
        (fun p => p.merchant_id == m2)
      = ps.filter (fun p => p.merchant_id == m2) := by
  rw [List.filter_filter]
  refine List.filter_congr ?_
  intro p _
  by_cases hp : p.merchant_id = m2
  · simp [hp, hne]
  · simp [hp]

theorem countActive_filter_out (m : Nat) (ps : List Product) :
    countActive (ps.filter (fun p => !(p.merchant_id == m))) m = 0 := by
  unfold countActive
  rw [List.filter_filter]
  rw [List.filter_eq_nil_iff.mpr (fun p _ => by
    by_cases hp : p.merchant_id = m <;> simp [hp])]
  rfl

/-! ### Claim C4 -/

/-- C4: an upload with replace true on a valid batch deletes all and
only the merchant rows before inserting: afterwards the merchant's rows
are exactly the new batch (none of the prior rows survive) and every
other merchant's rows are unchanged, for CSV and JSON uploads. -/
theorem claim4_replace_is_merchant_scoped :
    (∀ (db : DB) (m : Nat) (records : List CsvRow) (fails : Nat → Bool),
      records ≠ [] → csvErrors records = [] → (∀ j, fails j = false) →
      (csvUpload db m records true fails).1.products.filter
          (fun p => p.merchant_id == m) = csvProducts m records
        ∧ ∀ m2, m2 ≠ m →
          (csvUpload db m records true fails).1.products.filter
              (fun p => p.merchant_id == m2)
            = db.products.filter (fun p => p.merchant_id == m2))
    ∧ (∀ (db : DB) (m : Nat) (items : List JsonItem) (fails : Nat → Bool),
      items ≠ [] → jsonErrors items = [] → (∀ j, fails j = false) →
      (jsonUpload db m items true fails).1.products.filter
          (fun p => p.merchant_id == m) = jsonProducts m items
        ∧ ∀ m2, m2 ≠ m →
          (jsonUpload db m items true fails).1.products.filter
              (fun p => p.merchant_id == m2)
            = db.products.filter (fun p => p.merchant_id == m2)) := by
  constructor
  · intro db m records fails hne herr hf
    rw [csvUpload_noFail_eq db m records true fails hne herr hf]
    simp only [if_true, List.filter_append]
    constructor
    · rw [filter_out_then_self,
        filter_self_of_merchant m _ (csvProducts_merchant m records)]
      rfl
    · intro m2 hm2
      rw [filter_out_other m m2 hm2,
        filter_other_of_merchant m m2 hm2 _ (csvProducts_merchant m records)]
      simp
  · intro db m items fails hne herr hf
    rw [jsonUpload_noFail_eq db m items true fails hne herr hf]
    simp only [if_true, List.filter_append]
    constructor
    · rw [filter_out_then_self,
        filter_self_of_merchant m _ (jsonProducts_merchant m items)]
      rfl
    · intro m2 hm2
      rw [filter_out_other m m2 hm2,
        filter_other_of_merchant m m2 hm2 _ (jsonProducts_merchant m items)]
      simp

/-- Witness for C4: in a catalog holding two rows of merchant 1 (batch
A) and one row of merchant 2, a replace upload of a one-row batch B for
merchant 1 leaves merchant 1 with exactly the rows of B and merchant 2
untouched. -/
theorem claim4_witness :
    (csvUpload dbAB 1 [mkRow "NewW" "9" "https://acme.example/n"] true
        (fun _ => false)).1.products.filter (fun p => p.merchant_id == 1)
      = csvProducts 1 [mkRow "NewW" "9" "https://acme.example/n"]
    ∧ (csvUpload dbAB 1 [mkRow "NewW" "9" "https://acme.example/n"] true
        (fun _ => false)).1.products.filter (fun p => p.merchant_id == 2)
      = dbAB.products.filter (fun p => p.merchant_id == 2) :=
  ⟨(claim4_replace_is_merchant_scoped.1 dbAB 1
      [mkRow "NewW" "9" "https://acme.example/n"] (fun _ => false)
      (by decide) (by decide) (fun _ => rfl)).1,
   (claim4_replace_is_merchant_scoped.1 dbAB 1
      [mkRow "NewW" "9" "https://acme.example/n"] (fun _ => false)
      (by decide) (by decide) (fun _ => rfl)).2 2 (by decide)⟩

/-! ### Claim C5 -/

/-- C5: after every successful ingestion (CSV or JSON, append or
replace) the merchant row's product_count equals the count of that
merchant's active product rows in the resulting catalog; the value is a
recount of the products table and in particular independent of whatever
product_count was stored before (the quantification is over every
initial catalog, so no incremental update could satisfy it).  After a
purge the stored value 0 likewise equals the recount, every product row
of the merchant having just been deleted. -/
theorem claim5_product_count_is_recount :
    (∀ (db : DB) (m : Nat) (records : List CsvRow) (mode : Bool)
        (fails : Nat → Bool) (db2 : DB) (ins cnt : Nat),
      csvUpload db m records mode fails = (db2, .success ins cnt) →
      ∀ mm ∈ db2.merchants, mm.id = m →
        mm.product_count = countActive db2.products m)
    ∧ (∀ (db : DB) (m : Nat) (items : List JsonItem) (mode : Bool)
        (fails : Nat → Bool) (db2 : DB) (ins cnt : Nat),
      jsonUpload db m items mode fails = (db2, .success ins cnt) →
      ∀ mm ∈ db2.merchants, mm.id = m →
        mm.product_count = countActive db2.products m)
    ∧ (∀ (db : DB) (m : Nat),
      ∀ mm ∈ (purgeProducts db m).merchants, mm.id = m →
        mm.product_count = countActive (purgeProducts db m).products m) := by
  refine ⟨?_, ?_, ?_⟩
  · intro db m records mode fails db2 ins cnt h
    exact csvUpload_success_recount db m records mode fails db2 ins cnt h
  · intro db m items mode fails db2 ins cnt h
    exact jsonUpload_success_recount db m items mode fails db2 ins cnt h
  · intro db m mm hmm hid
    have h0 := mem_map_recount db.merchants m 0 mm hmm hid
    rw [h0]
    exact (countActive_filter_out m db.products).symm

/-- Witness for C5: a successful one-row JSON upload into a catalog
whose merchant row starts with the stale product_count 7 ends with the
merchant row matching the recount of its active rows; the purge case is
exercised on the same catalog. -/
theorem claim5_witness :
    (jsonUpload dbStale 1 [negItem] false (fun _ => false)
        = ((jsonUpload dbStale 1 [negItem] false (fun _ => false)).1,
           .success 1 1)
      ∧ ∀ mm ∈ (jsonUpload dbStale 1 [negItem] false (fun _ => false)).1.merchants,
          mm.id = 1 →
          mm.product_count = countActive
            (jsonUpload dbStale 1 [negItem] false (fun _ => false)).1.products 1)
    ∧ ∀ mm ∈ (purgeProducts dbStale 1).merchants, mm.id = 1 →
        mm.product_count = countActive (purgeProducts dbStale 1).products 1 := by
  have hshape : jsonUpload dbStale 1 [negItem] false (fun _ => false)
      = ((jsonUpload dbStale 1 [negItem] false (fun _ => false)).1,
         .success 1 1) := by decide
  exact ⟨⟨hshape,
    claim5_product_count_is_recount.2.1 dbStale 1 [negItem] false
      (fun _ => false) _ 1 1 hshape⟩,
    claim5_product_count_is_recount.2.2 dbStale 1⟩

/-! ### Claim C8 -/

/-- C8: for a valid batch, insertion proceeds sequentially in fixed
batches of 100 rows; when no insert fails the reported count equals the
batch length; when the insert of the (0-based) batch k fails, no later
batch is attempted, the prior batches stay inserted (no rollback) and
the reported inserted_so_far is exactly 100 * k, that is 100 * (k - 1)
for 1-based batch numbering; the upload response in that case is
insertFailure with exactly that count, both for CSV and for JSON
uploads. -/
theorem claim8_batch_insert_sequential (store ps : List Product)
    (fails : Nat → Bool) :
    ((∀ j, fails j = false) →
      insertBatches store ps fails 0 0 = ⟨store ++ ps, ps.length, true⟩)
    ∧ (∀ k, 100 * k < ps.length → (∀ j, j < k → fails j = false) →
        fails k = true →
        insertBatches store ps fails 0 0
          = ⟨store ++ ps.take (100 * k), 100 * k, false⟩)
    ∧ (∀ (db : DB) (m : Nat) (records : List CsvRow) (mode : Bool) (k : Nat),
        records ≠ [] → csvErrors records = [] →
        100 * k < (csvProducts m records).length →
        (∀ j, j < k → fails j = false) → fails k = true →
        (csvUpload db m records mode fails).2
          = .insertFailure (100 * k))
    ∧ (∀ (db : DB) (m : Nat) (items : List JsonItem) (mode : Bool) (k : Nat),
        items ≠ [] → jsonErrors items = [] →
        100 * k < (jsonProducts m items).length →
        (∀ j, j < k → fails j = false) → fails k = true →
        (jsonUpload db m items mode fails).2
          = .insertFailure (100 * k)) := by
  refine ⟨?_, ?_, ?_, ?_⟩
  · intro hf
    simpa using insertBatches_noFail store ps fails hf 0 0
  · intro k hlen hprev hk
    simpa using insertBatches_fail store ps fails k hlen hprev hk 0 0 rfl
  · intro db m records mode k hne herr hlen hprev hk
    have h0 : ¬(records.length = 0) := by
      simpa [List.length_eq_zero] using hne
    rw [csvUpload]
    simp only [if_neg h0, herr, ne_eq, not_true_eq_false, if_false,
      insertBatches_fail _ _ fails k hlen hprev hk 0 0 rfl]
    simp
  · intro db m items mode k hne herr hlen hprev hk
    have h0 : ¬(items.length = 0) := by
      simpa [List.length_eq_zero] using hne
    rw [jsonUpload]
    simp only [if_neg h0, herr, ne_eq, not_true_eq_false, if_false,
      insertBatches_fail _ _ fails k hlen hprev hk 0 0 rfl]
    simp

set_option maxRecDepth 4000 in
/-- Witness for C8 at a concrete 250-row batch: with no database
failure all 250 rows are inserted; with the insert of batch 2 (0-based)
failing, exactly the 200 rows of the two prior batches are kept and
reported. -/
theorem claim8_witness :
    insertBatches [] (List.replicate 250 pW) (fun _ => false) 0 0
      = ⟨[] ++ List.replicate 250 pW, (List.replicate 250 pW).length, true⟩
    ∧ 100 * 2 < (List.replicate 250 pW).length
    ∧ insertBatches [] (List.replicate 250 pW) (fun j => decide (2 ≤ j)) 0 0
      = ⟨[] ++ (List.replicate 250 pW).take (100 * 2), 100 * 2, false⟩ :=
  ⟨(claim8_batch_insert_sequential [] (List.replicate 250 pW)
      (fun _ => false)).1 (fun _ => rfl),
   by simp,
   (claim8_batch_insert_sequential [] (List.replicate 250 pW)
      (fun j => decide (2 ≤ j))).2.1 2 (by simp)
      (fun j hj => decide_eq_false (by omega)) (by decide)⟩

/-! ### Helper lemmas about pagination arithmetic -/

theorem ceil_div_eq_nat (t l : Nat) (hl : 0 < l) :
    Nat.ceil ((t : ℚ) / (l : ℚ)) = (t + l - 1) / l := by
  have hlq : (0 : ℚ) < (l : ℚ) := by exact_mod_cast hl
  have hdm := Nat.div_add_mod (t + l - 1) l
  have hm : (t + l - 1) % l < l := Nat.mod_lt _ hl
  have h : t ≤ l * ((t + l - 1) / l) := by omega
  apply le_antisymm
  · rw [Nat.ceil_le, div_le_iff₀ hlq]
    calc (t : ℚ) ≤ ((l * ((t + l - 1) / l) : Nat) : ℚ) := by exact_mod_cast h
      _ = ((t + l - 1) / l : Nat) * (l : ℚ) := by push_cast; ring
  · rw [Nat.div_le_iff_le_mul_add_pred hl]
    have h2 : (t : ℚ) ≤ (Nat.ceil ((t : ℚ) / (l : ℚ)) : ℚ) * l := by
      rw [← div_le_iff₀ hlq]
      exact Nat.le_ceil _
    have h3 : t ≤ Nat.ceil ((t : ℚ) / (l : ℚ)) * l := by exact_mod_cast h2
    have h4 : t ≤ l * Nat.ceil ((t : ℚ) / (l : ℚ)) := by rwa [mul_comm] at h3
    omega

theorem tp_mul_ge (t l : Nat) (hl : 0 < l) : t ≤ ((t + l - 1) / l) * l := by
  have hdm := Nat.div_add_mod (t + l - 1) l
  have hm : (t + l - 1) % l < l := Nat.mod_lt _ hl
  have h : t ≤ l * ((t + l - 1) / l) := by omega
  rwa [mul_comm] at h

theorem jsOrNat_pos (o : Option Nat) (d : Nat) (hd : 0 < d) :
    0 < jsOrNat o d := by
  cases o with
  | none => exact hd
  | some v =>
    cases v with
    | zero => exact hd
    | succ n => simp [jsOrNat]

/-! ### Claim C9 -/

/-- C9: in the product feed handler, page defaults to 1, limit defaults
to 100 and is capped at 500; total_pages (defined in the source as
Math.ceil(count / limit)) equals (total + limit - 1) / limit in natural
division, which is the usual statement of the ceiling; requesting a
page beyond the last yields an empty item list (and the handler result
is an ordinary feed response, not an error); and the next link is
present exactly when page * limit is less than the total count. -/
theorem claim9_pagination_defaults_cap_ceiling (ps : List Product)
    (pp lp : Option Nat) :
    (pp = none → (productFeed ps pp lp).page = 1)
    ∧ (lp = none → (productFeed ps pp lp).limit = 100)
    ∧ (productFeed ps pp lp).limit ≤ 500
    ∧ (productFeed ps pp lp).total_pages
        = ((productFeed ps pp lp).total + (productFeed ps pp lp).limit - 1)
          / (productFeed ps pp lp).limit
    ∧ ((productFeed ps pp lp).total_pages < (productFeed ps pp lp).page →
        (productFeed ps pp lp).items = [])
    ∧ ((productFeed ps pp lp).next = true ↔
        (productFeed ps pp lp).page * (productFeed ps pp lp).limit
          < (productFeed ps pp lp).total) := by
  have hL : 0 < min (jsOrNat lp 100) 500 :=
    lt_min (jsOrNat_pos lp 100 (by omega)) (by omega)
  refine ⟨?_, ?_, ?_, ?_, ?_, ?_⟩
  · intro h
    simp [productFeed, h, jsOrNat]
  · intro h
    simp [productFeed, h, jsOrNat]
  · simp [productFeed]
  · simp only [productFeed]
    exact ceil_div_eq_nat ps.length (min (jsOrNat lp 100) 500) hL
  · intro h
    simp only [productFeed] at h ⊢
    rw [ceil_div_eq_nat ps.length (min (jsOrNat lp 100) 500) hL] at h
    have hoff : ps.length
        ≤ (jsOrNat pp 1 - 1) * min (jsOrNat lp 100) 500 := by
      calc ps.length
          ≤ ((ps.length + min (jsOrNat lp 100) 500 - 1)
              / min (jsOrNat lp 100) 500) * min (jsOrNat lp 100) 500 :=
            tp_mul_ge ps.length (min (jsOrNat lp 100) 500) hL
        _ ≤ (jsOrNat pp 1 - 1) * min (jsOrNat lp 100) 500 :=
            Nat.mul_le_mul_right _ (by omega)
    rw [List.drop_eq_nil_of_le hoff]
    simp
  · simp [productFeed]

/-- Witness for C9 on a merchant with five products: absent parameters
give page 1 and limit 100; with page 4 and limit 2 the total_pages
formula holds, page 4 is beyond the last page (total_pages is 3) and
the item list is empty with no next link. -/
theorem claim9_witness :
    (productFeed (List.replicate 5 pW) none none).page = 1
    ∧ (productFeed (List.replicate 5 pW) none none).limit = 100
    ∧ (productFeed (List.replicate 5 pW) (some 4) (some 2)).total_pages
        = ((productFeed (List.replicate 5 pW) (some 4) (some 2)).total
            + (productFeed (List.replicate 5 pW) (some 4) (some 2)).limit - 1)
          / (productFeed (List.replicate 5 pW) (some 4) (some 2)).limit
    ∧ ((productFeed (List.replicate 5 pW) (some 4) (some 2)).total
            + (productFeed (List.replicate 5 pW) (some 4) (some 2)).limit - 1)
          / (productFeed (List.replicate 5 pW) (some 4) (some 2)).limit = 3
    ∧ (productFeed (List.replicate 5 pW) (some 4) (some 2)).items = []
    ∧ ((productFeed (List.replicate 5 pW) (some 4) (some 2)).next = true ↔
        (productFeed (List.replicate 5 pW) (some 4) (some 2)).page
          * (productFeed (List.replicate 5 pW) (some 4) (some 2)).limit
          < (productFeed (List.replicate 5 pW) (some 4) (some 2)).total) :=
  ⟨(claim9_pagination_defaults_cap_ceiling (List.replicate 5 pW)
      none none).1 rfl,
   (claim9_pagination_defaults_cap_ceiling (List.replicate 5 pW)
      none none).2.1 rfl,
   (claim9_pagination_defaults_cap_ceiling (List.replicate 5 pW)
      (some 4) (some 2)).2.2.2.1,
   by decide,
   (claim9_pagination_defaults_cap_ceiling (List.replicate 5 pW)
      (some 4) (some 2)).2.2.2.2.1 (by
        rw [(claim9_pagination_defaults_cap_ceiling (List.replicate 5 pW)
          (some 4) (some 2)).2.2.2.1]
        decide),
   (claim9_pagination_defaults_cap_ceiling (List.replicate 5 pW)
      (some 4) (some 2)).2.2.2.2.2⟩

/-! ### Helper lemmas about the checkout handlers -/

theorem applyUpdates_status (s : Session) (b : UpdateBody) :
    (applyUpdates s b).status = s.status := by
  obtain ⟨li, bi, sa, pm⟩ := b
  cases li <;> cases bi <;> cases sa <;> cases pm <;> rfl

theorem applyUpdatesExpress_status (s : Session) (b : UpdateBody) :
    (applyUpdatesExpress s b).status
      = if b.buyer_info.isSome && b.shipping_address.isSome
            && b.payment_method.isSome then Status.ready_for_complete
        else s.status := by
  obtain ⟨li, bi, sa, pm⟩ := b
  cases bi <;> cases sa <;> cases pm <;> rfl

theorem applyUpdate_fields (s : Session) (b : UpdateBody) :
    ((applyUpdatesExpress s b).buyer_info
        = if b.buyer_info.isSome then b.buyer_info else s.buyer_info)
    ∧ ((applyUpdatesExpress s b).shipping_address
        = if b.shipping_address.isSome then b.shipping_address
          else s.shipping_address)
    ∧ ((applyUpdatesExpress s b).payment_method
        = if b.payment_method.isSome then b.payment_method
          else s.payment_method)
    ∧ ((applyUpdates s b).buyer_info
        = if b.buyer_info.isSome then b.buyer_info else s.buyer_info)
    ∧ ((applyUpdates s b).shipping_address
        = if b.shipping_address.isSome then b.shipping_address
          else s.shipping_address)
    ∧ ((applyUpdates s b).payment_method
        = if b.payment_method.isSome then b.payment_method
          else s.payment_method) := by
  obtain ⟨li, bi, sa, pm⟩ := b
  cases li <;> cases bi <;> cases sa <;> cases pm <;>
    simp [applyUpdatesExpress, applyUpdates]

theorem validateCheckoutStatus_ready_iff (s : Session)
    (h : s.status ≠ .completed) :
    (validateCheckoutStatus s).1 = .ready_for_complete ↔
      (emailTruthy s.buyer_info = true ∧ s.shipping_address.isSome = true
        ∧ s.payment_method.isSome = true) := by
  by_cases he : emailTruthy s.buyer_info <;>
    by_cases hs : s.shipping_address.isSome <;>
      by_cases hp : s.payment_method.isSome <;>
        simp [validateCheckoutStatus, createUCPError, he, hs, hp, h]

theorem validateCheckoutStatus_paths (s : Session) :
    ((∃ msg ∈ (validateCheckoutStatus s).2, msg.path = "$.buyer.email") ↔
      emailTruthy s.buyer_info = false)
    ∧ ((∃ msg ∈ (validateCheckoutStatus s).2,
        msg.path = "$.shipping_address") ↔
      s.shipping_address.isSome = false)
    ∧ ((∃ msg ∈ (validateCheckoutStatus s).2,
        msg.path = "$.payment_method") ↔
      s.payment_method.isSome = false) := by
  by_cases he : emailTruthy s.buyer_info <;>
    by_cases hs : s.shipping_address.isSome <;>
      by_cases hp : s.payment_method.isSome <;>
        simp [validateCheckoutStatus, createUCPError, he, hs, hp]

theorem foldl_preserve (f : Session → UpdateBody → Session)
    (P : Session → Prop) (hstep : ∀ s b, P s → P (f s b)) :
    ∀ (bs : List UpdateBody) (s : Session), P s → P (bs.foldl f s) := by
  intro bs
  induction bs with
  | nil => intro s h; exact h
  | cons b bs ih => intro s h; exact ih (f s b) (hstep s b h)

/-! ### Claim C1 -/

/-- C1 counterexample: a session that already holds buyer_info (with
email) and shipping_address receives an update supplying only the
payment method.  After the update all three fields are present on the
session, yet the server route leaves the status at incomplete: the
status is not recomputed from the merged stored-plus-updated fields. -/
theorem claim1_counterexample :
    (expressUpdateHandler [("sess_1", sNeedsPay)] "sess_1" bPay).2
      = .ok (applyUpdatesExpress sNeedsPay bPay)
    ∧ emailTruthy (applyUpdatesExpress sNeedsPay bPay).buyer_info = true
    ∧ (applyUpdatesExpress sNeedsPay bPay).shipping_address.isSome = true
    ∧ (applyUpdatesExpress sNeedsPay bPay).payment_method.isSome = true
    ∧ (applyUpdatesExpress sNeedsPay bPay).status = .incomplete :=
  ⟨by decide, by decide, by decide, by decide, by decide⟩

/-- C1 amended: the two update handlers diverge.  The app route handler
recomputes the status of a non-completed session from the merged
stored-plus-updated fields: after any update it responds with the
recomputed status, which is ready_for_complete exactly when buyer email,
shipping address and payment method are all present on the merged
session.  The server route handler does not consult the merged fields:
for an update carrying at least one field it applies the supplied
fields and sets the status to ready_for_complete exactly when the
request body itself carries all three fields (otherwise the stored
status stays). -/
theorem claim1_amended_status_recompute :
    (∀ (l : SessionStore) (id : String) (b : UpdateBody) (s : Session),
      lookupSession l id = some s → s.status ≠ .completed →
      (handleUpdateCheckout l id b).2
        = .updated (validateCheckoutStatus (applyUpdates s b)).1
            (validateCheckoutStatus (applyUpdates s b)).2
      ∧ ((validateCheckoutStatus (applyUpdates s b)).1 = .ready_for_complete ↔
          (emailTruthy (applyUpdates s b).buyer_info = true
            ∧ (applyUpdates s b).shipping_address.isSome = true
            ∧ (applyUpdates s b).payment_method.isSome = true)))
    ∧ (∀ (l : SessionStore) (id : String) (b : UpdateBody) (s : Session),
      lookupSession l id = some s →
      (b.buyer_info.isSome ∨ b.shipping_address.isSome
        ∨ b.payment_method.isSome) →
      (expressUpdateHandler l id b).2 = .ok (applyUpdatesExpress s b)
      ∧ ((applyUpdatesExpress s b).status = .ready_for_complete ↔
          ((b.buyer_info.isSome = true ∧ b.shipping_address.isSome = true
              ∧ b.payment_method.isSome = true)
            ∨ s.status = .ready_for_complete))) := by
  constructor
  · intro l id b s hlook hnc
    constructor
    · simp only [handleUpdateCheckout, hlook]
    · exact validateCheckoutStatus_ready_iff (applyUpdates s b)
        (by rw [applyUpdates_status]; exact hnc)
  · intro l id b s hlook _
    constructor
    · simp only [expressUpdateHandler, hlook]
    · rw [applyUpdatesExpress_status]
      cases hc : (b.buyer_info.isSome && b.shipping_address.isSome
          && b.payment_method.isSome) with
      | true =>
        simp only [if_true]
        simp only [Bool.and_eq_true] at hc
        simp [hc]
      | false =>
        simp only [Bool.false_eq_true, if_false]
        constructor
        · intro h
          exact Or.inr h
        · intro h
          rcases h with h | h
          · exfalso
            simp [h.1, h.2.1, h.2.2] at hc
          · exact h

/-- Witness for C1 (amended) at the concrete session that has buyer
and shipping stored and receives only the payment method: the app route
responds ready_for_complete (all merged fields present), the server
route keeps incomplete (the body does not carry all three fields). -/
theorem claim1_witness :
    ((handleUpdateCheckout [("sess_1", sNeedsPay)] "sess_1" bPay).2
        = .updated (validateCheckoutStatus (applyUpdates sNeedsPay bPay)).1
            (validateCheckoutStatus (applyUpdates sNeedsPay bPay)).2
      ∧ ((validateCheckoutStatus (applyUpdates sNeedsPay bPay)).1
            = .ready_for_complete ↔
          (emailTruthy (applyUpdates sNeedsPay bPay).buyer_info = true
            ∧ (applyUpdates sNeedsPay bPay).shipping_address.isSome = true
            ∧ (applyUpdates sNeedsPay bPay).payment_method.isSome = true)))
    ∧ ((expressUpdateHandler [("sess_1", sNeedsPay)] "sess_1" bPay).2
        = .ok (applyUpdatesExpress sNeedsPay bPay)
      ∧ ((applyUpdatesExpress sNeedsPay bPay).status = .ready_for_complete ↔
          ((bPay.buyer_info.isSome = true
              ∧ bPay.shipping_address.isSome = true
              ∧ bPay.payment_method.isSome = true)
            ∨ sNeedsPay.status = .ready_for_complete))) :=
  ⟨claim1_amended_status_recompute.1 [("sess_1", sNeedsPay)] "sess_1" bPay
     sNeedsPay (by decide) (by decide),
   claim1_amended_status_recompute.2 [("sess_1", sNeedsPay)] "sess_1" bPay
     sNeedsPay (by decide) (Or.inr (Or.inr (by decide)))⟩

/-! ### Claim C2 -/

/-- C2 (code bug evidence): a completed session is not protected.  The
server route update on a completed session is accepted, applies the
body fields and, because the body carries all three fields, overwrites
the status with ready_for_complete — the session leaves the terminal
state and could be completed again.  The app route update on a
completed session is also accepted and changes the stored payment
method; only the recomputed status stays completed. -/
theorem claim2_completed_session_updatable :
    (expressUpdateHandler [("sess_2", sDone)] "sess_2" bAll).2
      = .ok sDoneAfterExpress
    ∧ lookupSession
        (expressUpdateHandler [("sess_2", sDone)] "sess_2" bAll).1 "sess_2"
      = some sDoneAfterExpress
    ∧ sDoneAfterExpress.status = .ready_for_complete
    ∧ (handleUpdateCheckout [("sess_2", sDone)] "sess_2" bPay).2
      = .updated .completed []
    ∧ lookupSession
        (handleUpdateCheckout [("sess_2", sDone)] "sess_2" bPay).1 "sess_2"
      = some sDoneAfterRemix
    ∧ sDoneAfterRemix ≠ sDone :=
  ⟨by decide, by decide, by decide, by decide, by decide, by decide⟩

/-! ### Claim C6 -/

/-- C6 counterexample: completing a session that is missing only its
shipping address fails on the server route with the bare Not ready
outcome — no structured message, no path naming shipping_address — and
the store is unchanged; moreover the server route completes a session
whose stored status is ready_for_complete even though its recomputed
status is not (buyer email missing), so success does not coincide with
the recomputed status being ready_for_complete. -/
theorem claim6_counterexample :
    expressCompleteHandler [("sess_3", sNeedsShip)] "sess_3" "order_9"
      = ([("sess_3", sNeedsShip)], .notReady)
    ∧ (validateCheckoutStatus sNeedsShip).1 = .incomplete
    ∧ (expressCompleteHandler [("sess_4", sReadyNoEmail)] "sess_4"
        "order_10").2 = .okDone "order_10"
    ∧ (validateCheckoutStatus sReadyNoEmail).1 = .incomplete :=
  ⟨by decide, by decide, by decide, by decide⟩

/-- C6 amended: the app route complete recomputes the status with
validateCheckoutStatus; when it is not ready_for_complete the call
fails, assigns no order id (the store is returned unchanged) and
carries the validation messages, whose paths identify exactly the
missing fields ($.buyer.email, $.shipping_address, $.payment_method);
it succeeds exactly when the recomputed status is ready_for_complete.
The server route complete instead tests the stored status and on
failure returns only the generic Not ready response with no messages,
succeeding exactly when the stored status is ready_for_complete. -/
theorem claim6_amended_complete_behaviour :
    (∀ (l : SessionStore) (id : String) (s : Session) (oid : String),
      lookupSession l id = some s →
      ((validateCheckoutStatus s).1 ≠ .ready_for_complete →
        handleCompleteCheckout l id oid
          = (l, .notReadyMsgs (validateCheckoutStatus s).2))
      ∧ ((validateCheckoutStatus s).1 = .ready_for_complete →
        handleCompleteCheckout l id oid
          = (setSession l id
              { s with status := .completed, shopify_order_id := some oid },
             .completedOk oid)))
    ∧ (∀ s : Session,
      ((∃ msg ∈ (validateCheckoutStatus s).2, msg.path = "$.buyer.email") ↔
        emailTruthy s.buyer_info = false)
      ∧ ((∃ msg ∈ (validateCheckoutStatus s).2,
          msg.path = "$.shipping_address") ↔
        s.shipping_address.isSome = false)
      ∧ ((∃ msg ∈ (validateCheckoutStatus s).2,
          msg.path = "$.payment_method") ↔
        s.payment_method.isSome = false))
    ∧ (∀ (l : SessionStore) (id : String) (s : Session) (oid : String),
      lookupSession l id = some s →
      (s.status ≠ .ready_for_complete →
        expressCompleteHandler l id oid = (l, .notReady))
      ∧ (s.status = .ready_for_complete →
        expressCompleteHandler l id oid
          = (setSession l id
              { s with status := .completed, shopify_order_id := some oid },
             .okDone oid))) := by
  refine ⟨?_, ?_, ?_⟩
  · intro l id s oid hlook
    constructor
    · intro h
      simp only [handleCompleteCheckout, hlook]
      rw [if_neg h]
    · intro h
      simp only [handleCompleteCheckout, hlook]
      rw [if_pos h]
  · intro s
    exact validateCheckoutStatus_paths s
  · intro l id s oid hlook
    constructor
    · intro h
      simp only [expressCompleteHandler, hlook]
      rw [if_neg h]
    · intro h
      simp only [expressCompleteHandler, hlook]
      rw [if_pos h]

/-- Witness for C6 (amended): completing the session that is missing
only its shipping address fails on the app route with the validation
messages, among which a message with path $.shipping_address occurs;
the server route fails with the bare Not ready outcome. -/
theorem claim6_witness :
    handleCompleteCheckout [("sess_3", sNeedsShip)] "sess_3" "order_9"
      = ([("sess_3", sNeedsShip)],
         .notReadyMsgs (validateCheckoutStatus sNeedsShip).2)
    ∧ ((∃ msg ∈ (validateCheckoutStatus sNeedsShip).2,
        msg.path = "$.shipping_address") ↔
      sNeedsShip.shipping_address.isSome = false)
    ∧ expressCompleteHandler [("sess_3", sNeedsShip)] "sess_3" "order_9"
      = ([("sess_3", sNeedsShip)], .notReady) :=
  ⟨claim6_amended_complete_behaviour.1 [("sess_3", sNeedsShip)] "sess_3"
     sNeedsShip "order_9" (by decide) |>.1 (by decide),
   (claim6_amended_complete_behaviour.2.1 sNeedsShip).2.1,
   claim6_amended_complete_behaviour.2.2 [("sess_3", sNeedsShip)] "sess_3"
     sNeedsShip "order_9" (by decide) |>.1 (by decide)⟩

/-! ### Claim C10 -/

/-- C10: both update handlers apply only the fields that are present
(and non-null, hence truthy) in the request body: a field absent from
the body keeps its stored value, and a field that is populated on the
session stays populated after the update; consequently the set of
populated fields grows monotonically across any sequence of updates,
on the server route and the app route alike. -/
theorem claim10_updates_apply_only_present_fields :
    (∀ (s : Session) (b : UpdateBody),
      (b.buyer_info = none →
        (applyUpdatesExpress s b).buyer_info = s.buyer_info
          ∧ (applyUpdates s b).buyer_info = s.buyer_info)
      ∧ (b.shipping_address = none →
        (applyUpdatesExpress s b).shipping_address = s.shipping_address
          ∧ (applyUpdates s b).shipping_address = s.shipping_address)
      ∧ (b.payment_method = none →
        (applyUpdatesExpress s b).payment_method = s.payment_method
          ∧ (applyUpdates s b).payment_method = s.payment_method)
      ∧ (s.buyer_info.isSome = true →
        (applyUpdatesExpress s b).buyer_info.isSome = true
          ∧ (applyUpdates s b).buyer_info.isSome = true)
      ∧ (s.shipping_address.isSome = true →
        (applyUpdatesExpress s b).shipping_address.isSome = true
          ∧ (applyUpdates s b).shipping_address.isSome = true)
      ∧ (s.payment_method.isSome = true →
        (applyUpdatesExpress s b).payment_method.isSome = true
          ∧ (applyUpdates s b).payment_method.isSome = true))
    ∧ (∀ (bs : List UpdateBody) (s : Session),
      (s.buyer_info.isSome = true →
        (bs.foldl applyUpdatesExpress s).buyer_info.isSome = true
          ∧ (bs.foldl applyUpdates s).buyer_info.isSome = true)
      ∧ (s.shipping_address.isSome = true →
        (bs.foldl applyUpdatesExpress s).shipping_address.isSome = true
          ∧ (bs.foldl applyUpdates s).shipping_address.isSome = true)
      ∧ (s.payment_method.isSome = true →
        (bs.foldl applyUpdatesExpress s).payment_method.isSome = true
          ∧ (bs.foldl applyUpdates s).payment_method.isSome = true)) := by
  have hstep : ∀ (s : Session) (b : UpdateBody),
      (b.buyer_info = none →
        (applyUpdatesExpress s b).buyer_info = s.buyer_info
          ∧ (applyUpdates s b).buyer_info = s.buyer_info)
      ∧ (b.shipping_address = none →
        (applyUpdatesExpress s b).shipping_address = s.shipping_address
          ∧ (applyUpdates s b).shipping_address = s.shipping_address)
      ∧ (b.payment_method = none →
        (applyUpdatesExpress s b).payment_method = s.payment_method
          ∧ (applyUpdates s b).payment_method = s.payment_method)
      ∧ (s.buyer_info.isSome = true →
        (applyUpdatesExpress s b).buyer_info.isSome = true
          ∧ (applyUpdates s b).buyer_info.isSome = true)
      ∧ (s.shipping_address.isSome = true →
        (applyUpdatesExpress s b).shipping_address.isSome = true
          ∧ (applyUpdates s b).shipping_address.isSome = true)
      ∧ (s.payment_method.isSome = true →
        (applyUpdatesExpress s b).payment_method.isSome = true
          ∧ (applyUpdates s b).payment_method.isSome = true) := by
    intro s b
    obtain ⟨hf1, hf2, hf3, hf4, hf5, hf6⟩ := applyUpdate_fields s b
    refine ⟨?_, ?_, ?_, ?_, ?_, ?_⟩
    · intro hb
      rw [hf1, hf4, hb]
      simp
    · intro hb
      rw [hf2, hf5, hb]
      simp
    · intro hb
      rw [hf3, hf6, hb]
      simp
    · intro hs
      rw [hf1, hf4]
      cases hb : b.buyer_info <;> simp [hs]
    · intro hs
      rw [hf2, hf5]
      cases hb : b.shipping_address <;> simp [hs]
    · intro hs
      rw [hf3, hf6]
      cases hb : b.payment_method <;> simp [hs]
  refine ⟨hstep, ?_⟩
  intro bs s
  refine ⟨?_, ?_, ?_⟩
  · intro hs
    exact ⟨foldl_preserve applyUpdatesExpress
        (fun s => s.buyer_info.isSome = true)
        (fun s b h => ((hstep s b).2.2.2.1 h).1) bs s hs,
      foldl_preserve applyUpdates (fun s => s.buyer_info.isSome = true)
        (fun s b h => ((hstep s b).2.2.2.1 h).2) bs s hs⟩
  · intro hs
    exact ⟨foldl_preserve applyUpdatesExpress
        (fun s => s.shipping_address.isSome = true)
        (fun s b h => ((hstep s b).2.2.2.2.1 h).1) bs s hs,
      foldl_preserve applyUpdates
        (fun s => s.shipping_address.isSome = true)
        (fun s b h => ((hstep s b).2.2.2.2.1 h).2) bs s hs⟩
  · intro hs
    exact ⟨foldl_preserve applyUpdatesExpress
        (fun s => s.payment_method.isSome = true)
        (fun s b h => ((hstep s b).2.2.2.2.2 h).1) bs s hs,
      foldl_preserve applyUpdates
        (fun s => s.payment_method.isSome = true)
        (fun s b h => ((hstep s b).2.2.2.2.2 h).2) bs s hs⟩

/-- Witness for C10 at a concrete session and update: updating the
session that holds buyer and shipping with a body carrying only the
payment method keeps buyer_info unchanged on both handlers and keeps
the shipping address populated after a further sequence of updates. -/
theorem claim10_witness :
    ((applyUpdatesExpress sNeedsPay bPay).buyer_info = sNeedsPay.buyer_info
        ∧ (applyUpdates sNeedsPay bPay).buyer_info = sNeedsPay.buyer_info)
    ∧ ((applyUpdatesExpress sNeedsPay bPay).buyer_info.isSome = true
        ∧ (applyUpdates sNeedsPay bPay).buyer_info.isSome = true)
    ∧ (([bPay, bAll].foldl applyUpdatesExpress sNeedsPay).shipping_address.isSome = true
        ∧ ([bPay, bAll].foldl applyUpdates sNeedsPay).shipping_address.isSome = true) :=
  ⟨(claim10_updates_apply_only_present_fields.1 sNeedsPay bPay).1
     (by decide),
   (claim10_updates_apply_only_present_fields.1 sNeedsPay bPay).2.2.2.1
     (by decide),
   (claim10_updates_apply_only_present_fields.2 [bPay, bAll]
     sNeedsPay).2.1 (by decide)⟩

end EasyUcp
